import Mathlib

/-!
Verification of the `EXPERIMENTAL_check_tx` method descriptor of the
near-jsonrpc-client dispatch core, embedded shallowly from
`src/methods/experimental/check_tx.rs`, together with a spec-modelled
Dispatcher (the generic `call` path is declared outside the provided
source; it is modelled from the specification, section 4.3).
-/

/-- A JSON value (`serde_json::Value`), the transport-neutral parameter and
payload representation. -/
inductive Json where
  | null : Json
  | bool (b : Bool) : Json
  | num (n : Int) : Json
  | str (s : String) : Json
  | arr (xs : List Json) : Json
  | obj (fields : List (String × Json)) : Json
deriving Repr

/-- A serialization failure (`std::io::Error`), carried as its message. -/
structure IoError where
  msg : String
deriving Repr, DecidableEq

/-- A signed transaction (`near_primitives::transaction::SignedTransaction`,
re-exported by the source file). The dispatch core never inspects it: it only
ever hands it to the canonical serializer. We therefore represent a signed
transaction by the outcome of its canonical serialization, which the source
treats as a deterministic, possibly failing function of the value. -/
structure SignedTransaction where
  serialized : Except IoError String

/-- Modelled from the spec: `common::serialize_signed_transaction` is not part
of the provided source. The spec (section 4.1) says serialization canonicalizes
a signed payload into bytes and `Fails with SerializationError when a field
cannot be encoded`. It is the deterministic canonical encoding of the
transaction. -/
def serialize_signed_transaction (tx : SignedTransaction) : Except IoError String :=
  tx.serialized

/-- The request descriptor for `EXPERIMENTAL_check_tx`
(`RpcCheckTxRequest`, check_tx.rs line 82). -/
structure RpcCheckTxRequest where
  signed_transaction : SignedTransaction

/-- The declared success shape `RpcBroadcastTxSyncResponse`
(re-exported from `near_jsonrpc_primitives::types::transactions`; its fields
live outside the provided source, so it is carried opaquely by its
transaction hash). -/
structure RpcBroadcastTxSyncResponse where
  transaction_hash : String
deriving Repr, DecidableEq

/-- The declared protocol-error shape `RpcTransactionError`
(re-exported from `near_jsonrpc_primitives::types::transactions`; its variants
live outside the provided source, so it is carried opaquely as a tag). -/
structure RpcTransactionError where
  tag : String
deriving Repr, DecidableEq

/-- The target of the `From` conversion,
`near_jsonrpc_primitives::types::transactions::RpcBroadcastTransactionRequest`;
check_tx.rs lines 86-94 construct it with its `signed_transaction` field. -/
structure RpcBroadcastTransactionRequest where
  signed_transaction : SignedTransaction

/-- `From<RpcCheckTxRequest> for RpcBroadcastTransactionRequest`
(check_tx.rs lines 86-94). -/
def RpcBroadcastTransactionRequest.from (this : RpcCheckTxRequest) :
    RpcBroadcastTransactionRequest :=
  { signed_transaction := this.signed_transaction }

/-- `RpcCheckTxRequest::method_name` (check_tx.rs lines 100-102): returns the
string literal `EXPERIMENTAL_check_tx`, ignoring the receiver's data. -/
def RpcCheckTxRequest.method_name (_this : RpcCheckTxRequest) : String :=
  "EXPERIMENTAL_check_tx"

/-- `RpcCheckTxRequest::params` (check_tx.rs lines 104-108):
`Ok(json!([common::serialize_signed_transaction(&self.signed_transaction)?]))`.
The `?` operator propagates a serialization error unchanged; on success the
base64 string is wrapped as the single element of a JSON array. -/
def RpcCheckTxRequest.params (self : RpcCheckTxRequest) : Except IoError Json := do
  let s ← serialize_signed_transaction self.signed_transaction
  return Json.arr [Json.str s]

/-- The `RpcMethod` trait (declared outside the provided source; its shape is
determined by the impl at check_tx.rs lines 96-109): per descriptor type it
fixes an associated success type, an associated error type, a method name and
a parameter serializer. -/
structure RpcMethodImpl (Self : Type) where
  Response : Type
  Error : Type
  method_name : Self → String
  params : Self → Except IoError Json

/-- `impl RpcMethod for RpcCheckTxRequest` (check_tx.rs lines 96-109):
`type Response = RpcBroadcastTxSyncResponse; type Error = RpcTransactionError`,
with the method name and params functions above. -/
def RpcCheckTxRequest.rpcMethod : RpcMethodImpl RpcCheckTxRequest :=
  { Response := RpcBroadcastTxSyncResponse
    Error := RpcTransactionError
    method_name := RpcCheckTxRequest.method_name
    params := RpcCheckTxRequest.params }

/-- Modelled from the spec: the reply of the transport collaborator (section 3,
Response Envelope): either a success payload, a protocol-level error payload,
or a transport-level failure with no JSON at all. -/
inductive TransportReply where
  | failure (msg : String) : TransportReply
  | success (payload : Json) : TransportReply
  | protocolError (payload : Json) : TransportReply

/-- Modelled from the spec: what `UnifiedError::Protocol` wraps — either the
serialization failure of `params()` (section 4.3 step 1) or the decoded
descriptor-declared error (step 5). -/
inductive ProtocolFailure (E : Type) where
  | serialization (e : IoError) : ProtocolFailure E
  | declared (e : E) : ProtocolFailure E
deriving Repr, DecidableEq

/-- Modelled from the spec: the Unified Error taxonomy (sections 3 and 4.4), a
tagged variant with exactly three kinds: Transport, Protocol (typed per
descriptor), ShapeMismatch (carrying the raw payload). -/
inductive UnifiedError (E : Type) where
  | Transport (msg : String) : UnifiedError E
  | Protocol (e : ProtocolFailure E) : UnifiedError E
  | ShapeMismatch (raw : Json) : UnifiedError E

/-- Modelled from the spec: steps 4-6 of the Dispatcher algorithm (section
4.3), decoding the transport's reply with the descriptor's declared decoders.
A transport failure becomes `UnifiedError.Transport`; a protocol-error payload
is decoded with the error decoder, falling back to `ShapeMismatch` with the
raw payload; a success payload is decoded with the response decoder, with the
same fallback. -/
def handleReply {R E : Type} (decodeResponse : Json → Option R)
    (decodeError : Json → Option E) : TransportReply → Except (UnifiedError E) R
  | TransportReply.failure msg => Except.error (UnifiedError.Transport msg)
  | TransportReply.protocolError payload =>
      match decodeError payload with
      | some e => Except.error (UnifiedError.Protocol (ProtocolFailure.declared e))
      | none => Except.error (UnifiedError.ShapeMismatch payload)
  | TransportReply.success payload =>
      match decodeResponse payload with
      | some r => Except.ok r
      | none => Except.error (UnifiedError.ShapeMismatch payload)

/-- Modelled from the spec: the Dispatcher's generic `call` path (section 4.3),
which is declared outside the provided source. Step 1: obtain the method name
and parameters; if `params` failed, short-circuit to `UnifiedError.Protocol`
wrapping the serialization failure without consulting the transport. Steps 2-3:
otherwise hand the name and parameters to the transport collaborator. Steps
4-6: decode its reply via `handleReply`. The transport collaborator is passed
in as a function from the envelope's method name and parameters to its
reply. -/
def call {R E : Type} (method_name : String) (params : Except IoError Json)
    (decodeResponse : Json → Option R) (decodeError : Json → Option E)
    (transport : String → Json → TransportReply) : Except (UnifiedError E) R :=
  match params with
  | Except.error e =>
      Except.error (UnifiedError.Protocol (ProtocolFailure.serialization e))
  | Except.ok p => handleReply decodeResponse decodeError (transport method_name p)

/-- The state-passing view of the call `self.method_name()`: the source takes
the receiver by shared reference (`&self`, check_tx.rs line 100), so the
invocation returns its result alongside the unchanged descriptor. -/
def RpcCheckTxRequest.method_name_call (self : RpcCheckTxRequest) :
    String × RpcCheckTxRequest :=
  (self.method_name, self)

/-- The state-passing view of the call `self.params()`: the source takes the
receiver by shared reference (`&self`, check_tx.rs line 104), so the
invocation returns its result alongside the unchanged descriptor. -/
def RpcCheckTxRequest.params_call (self : RpcCheckTxRequest) :
    Except IoError Json × RpcCheckTxRequest :=
  (self.params, self)

/-- A concrete response decoder used to instantiate the generic dispatcher
theorems: reads a `transaction_hash` field out of a one-field object. -/
def decodeBroadcastTxSyncResponse : Json → Option RpcBroadcastTxSyncResponse
  | Json.obj [("transaction_hash", Json.str h)] => some ⟨h⟩
  | _ => none

/-- A concrete protocol-error decoder used to instantiate the generic
dispatcher theorems: reads a `name` tag out of a one-field object. -/
def decodeTransactionError : Json → Option RpcTransactionError
  | Json.obj [("name", Json.str t)] => some ⟨t⟩
  | _ => none

/-- C1: for every `RpcCheckTxRequest` whose signed transaction serializes
successfully, `params()` returns `Ok` of a JSON array whose single element is
the serialization of the request's `signed_transaction` field. -/
theorem checkTx_params_serializes_to_singleton_array (r : RpcCheckTxRequest)
    (s : String)
    (h : serialize_signed_transaction r.signed_transaction = Except.ok s) :
    r.params = Except.ok (Json.arr [Json.str s]) := by
  simp [RpcCheckTxRequest.params, h]

/-- Witness for C1 at a concrete request whose transaction serializes to
`"signed-tx-b64"`. -/
theorem checkTx_params_serializes_to_singleton_array_witness :
    serialize_signed_transaction
        (SignedTransaction.mk (Except.ok "signed-tx-b64"))
      = Except.ok "signed-tx-b64" ∧
    (RpcCheckTxRequest.mk (SignedTransaction.mk (Except.ok "signed-tx-b64"))).params
      = Except.ok (Json.arr [Json.str "signed-tx-b64"]) :=
  ⟨rfl, checkTx_params_serializes_to_singleton_array _ "signed-tx-b64" rfl⟩

/-- C2: for every `RpcCheckTxRequest`, `method_name()` returns the constant
string `EXPERIMENTAL_check_tx`, independent of the `signed_transaction` field;
any two instances return the same name. -/
theorem checkTx_method_name_constant (r₁ r₂ : RpcCheckTxRequest) :
    r₁.method_name = "EXPERIMENTAL_check_tx" ∧ r₁.method_name = r₂.method_name :=
  ⟨rfl, rfl⟩

/-- C3: `params()` returns `Err` exactly when serializing the signed
transaction fails, and the serialization error is propagated unchanged. -/
theorem checkTx_params_error_iff_serialization_error (r : RpcCheckTxRequest)
    (e : IoError) :
    r.params = Except.error e ↔
      serialize_signed_transaction r.signed_transaction = Except.error e := by
  cases h : r.signed_transaction.serialized <;>
    simp [RpcCheckTxRequest.params, serialize_signed_transaction, h]

/-- C4: the success and error decode shapes of `RpcCheckTxRequest` are fixed at
the type level: its associated `Response` type is `RpcBroadcastTxSyncResponse`
and its associated `Error` type is `RpcTransactionError`, for every instance
and every call (the association is part of the type's `RpcMethod` impl, not of
any instance). -/
theorem checkTx_associated_types_fixed :
    RpcCheckTxRequest.rpcMethod.Response = RpcBroadcastTxSyncResponse ∧
    RpcCheckTxRequest.rpcMethod.Error = RpcTransactionError :=
  ⟨rfl, rfl⟩

/-- C6: if `params()` fails, `call` returns `UnifiedError.Protocol` wrapping
the serialization failure and is independent of the transport (the transport
is not invoked); if `params()` succeeds, `call` proceeds to the transport step
(its result is exactly the handling of the transport's reply) and never takes
the parameter-failure short-circuit. -/
theorem call_short_circuits_iff_params_fails :
    (∀ (R E : Type) (e : IoError) (dR : Json → Option R) (dE : Json → Option E)
        (name : String) (t t' : String → Json → TransportReply),
        call name (Except.error e) dR dE t
          = Except.error (UnifiedError.Protocol (ProtocolFailure.serialization e)) ∧
        call name (Except.error e) dR dE t = call name (Except.error e) dR dE t') ∧
    (∀ (R E : Type) (p : Json) (dR : Json → Option R) (dE : Json → Option E)
        (name : String) (t : String → Json → TransportReply),
        call name (Except.ok p) dR dE t = handleReply dR dE (t name p) ∧
        ∀ e : IoError, call name (Except.ok p) dR dE t
          ≠ Except.error (UnifiedError.Protocol (ProtocolFailure.serialization e))) := by
  constructor
  · intro R E e dR dE name t t'
    exact ⟨rfl, rfl⟩
  · intro R E p dR dE name t
    refine ⟨rfl, fun e hctr => ?_⟩
    have hcall : call name (Except.ok p) dR dE t = handleReply dR dE (t name p) := rfl
    rw [hcall] at hctr
    cases h : t name p with
    | failure msg =>
        rw [h] at hctr
        simp [handleReply] at hctr
    | success payload =>
        rw [h] at hctr
        cases hdr : dR payload <;> simp [handleReply, hdr] at hctr
    | protocolError payload =>
        rw [h] at hctr
        cases hde : dE payload <;> simp [handleReply, hde] at hctr

/-- Witness for C6 at concrete inputs: a failing `params` short-circuits to
the wrapped serialization error, and a succeeding `params` hands the
parameters to the transport and handles its reply. -/
theorem call_short_circuits_iff_params_fails_witness :
    call "EXPERIMENTAL_check_tx" (Except.error (IoError.mk "bad payload"))
        decodeBroadcastTxSyncResponse decodeTransactionError
        (fun _ _ => TransportReply.failure "connection refused")
      = Except.error
          (UnifiedError.Protocol (ProtocolFailure.serialization (IoError.mk "bad payload"))) ∧
    call "EXPERIMENTAL_check_tx" (Except.ok (Json.arr [Json.str "signed-tx-b64"]))
        decodeBroadcastTxSyncResponse decodeTransactionError
        (fun _ _ => TransportReply.failure "connection refused")
      = handleReply decodeBroadcastTxSyncResponse decodeTransactionError
          (TransportReply.failure "connection refused") :=
  ⟨(call_short_circuits_iff_params_fails.1 RpcBroadcastTxSyncResponse
      RpcTransactionError (IoError.mk "bad payload") decodeBroadcastTxSyncResponse
      decodeTransactionError "EXPERIMENTAL_check_tx"
      (fun _ _ => TransportReply.failure "connection refused")
      (fun _ _ => TransportReply.failure "connection refused")).1,
   (call_short_circuits_iff_params_fails.2 RpcBroadcastTxSyncResponse
      RpcTransactionError (Json.arr [Json.str "signed-tx-b64"])
      decodeBroadcastTxSyncResponse decodeTransactionError "EXPERIMENTAL_check_tx"
      (fun _ _ => TransportReply.failure "connection refused")).1⟩

/-- C7: if the transport returns a protocol-error payload that decodes as the
descriptor's declared error type, `call` returns `UnifiedError.Protocol`
wrapping exactly the decoded error, and never `ShapeMismatch`, for that
reply. -/
theorem call_decodes_declared_protocol_error (R E : Type) (p payload : Json)
    (e : E) (dR : Json → Option R) (dE : Json → Option E) (name : String)
    (t : String → Json → TransportReply)
    (ht : t name p = TransportReply.protocolError payload)
    (hd : dE payload = some e) :
    call name (Except.ok p) dR dE t
      = Except.error (UnifiedError.Protocol (ProtocolFailure.declared e)) ∧
    ∀ raw : Json, call name (Except.ok p) dR dE t
      ≠ Except.error (UnifiedError.ShapeMismatch raw) := by
  have h₁ : call name (Except.ok p) dR dE t
      = Except.error (UnifiedError.Protocol (ProtocolFailure.declared e)) := by
    have hcall : call name (Except.ok p) dR dE t = handleReply dR dE (t name p) := rfl
    rw [hcall, ht]
    simp [handleReply, hd]
  refine ⟨h₁, fun raw hctr => ?_⟩
  rw [h₁] at hctr
  simp at hctr

/-- Witness for C7: a transport stub answering with the protocol-error payload
`\x7b"name": "InvalidNonce"\x7d` makes `call` surface the decoded
`RpcTransactionError` tagged `InvalidNonce`, wrapped in
`UnifiedError.Protocol`. -/
theorem call_decodes_declared_protocol_error_witness :
    call "EXPERIMENTAL_check_tx" (Except.ok (Json.arr [Json.str "signed-tx-b64"]))
        decodeBroadcastTxSyncResponse decodeTransactionError
        (fun _ _ =>
          TransportReply.protocolError (Json.obj [("name", Json.str "InvalidNonce")]))
      = Except.error
          (UnifiedError.Protocol
            (ProtocolFailure.declared (RpcTransactionError.mk "InvalidNonce"))) :=
  (call_decodes_declared_protocol_error _ _ _ _ (RpcTransactionError.mk "InvalidNonce")
    _ _ _ _ rfl rfl).1

/-- C8: a descriptor is immutable through its calls: invoking `method_name` or
`params` (which take the receiver by shared reference) leaves the
`signed_transaction` field, and the whole descriptor, unchanged. -/
theorem checkTx_calls_leave_descriptor_unchanged (r : RpcCheckTxRequest) :
    r.method_name_call.2.signed_transaction = r.signed_transaction ∧
    r.params_call.2.signed_transaction = r.signed_transaction ∧
    r.method_name_call.2 = r ∧ r.params_call.2 = r :=
  ⟨rfl, rfl, rfl, rfl⟩

/-- C9: `method_name()` and `params()` are deterministic functions of the
descriptor's data: two descriptors with equal `signed_transaction` fields
yield equal results, with no dependence on hidden or shared state. -/
theorem checkTx_methods_deterministic (r₁ r₂ : RpcCheckTxRequest)
    (h : r₁.signed_transaction = r₂.signed_transaction) :
    r₁.params = r₂.params ∧ r₁.method_name = r₂.method_name := by
  exact ⟨by simp [RpcCheckTxRequest.params, h], rfl⟩

/-- Witness for C9 at two structurally equal concrete requests. -/
theorem checkTx_methods_deterministic_witness :
    (RpcCheckTxRequest.mk (SignedTransaction.mk (Except.ok "signed-tx-b64"))).params
      = (RpcCheckTxRequest.mk (SignedTransaction.mk (Except.ok "signed-tx-b64"))).params ∧
    (RpcCheckTxRequest.mk (SignedTransaction.mk (Except.ok "signed-tx-b64"))).method_name
      = (RpcCheckTxRequest.mk (SignedTransaction.mk (Except.ok "signed-tx-b64"))).method_name :=
  checkTx_methods_deterministic _ _ rfl

/-- C10: the `From` conversion into `RpcBroadcastTransactionRequest` preserves
the `signed_transaction` field exactly. -/
theorem from_checkTx_preserves_signed_transaction (r : RpcCheckTxRequest) :
    (RpcBroadcastTransactionRequest.from r).signed_transaction
      = r.signed_transaction :=
  rfl
